import Mathlib

/-
Verification of the MPC (model predictive control) controller sources
(src/MPC.h, src/MPC.cpp, src/main.cpp) against their specification.

Machine doubles are embedded as exact rationals; the trigonometric
functions of the numeric library (cos, sin, atan) are abstract function
parameters named rcos, rsin, ratan, since the properties checked here do
not depend on their values.
-/

namespace MPCModel

/-- Horizon length N, MPC.cpp line 10. -/
def N : ℕ := 8

/-- Timestep duration dt, MPC.cpp line 11. -/
def dt : ℚ := 1/10

/-- Reference velocity ref_v, MPC.cpp line 14. -/
def ref_v : ℚ := 50

/-- Distance from front axle to centre of gravity Lf, MPC.h line 10. -/
def Lf : ℚ := 267/100

/-- Offset of the x block in the decision vector, MPC.cpp line 21. -/
def x_start : ℕ := 0

/-- Offset of the y block, MPC.cpp line 22. -/
def y_start : ℕ := x_start + N

/-- Offset of the psi block, MPC.cpp line 23. -/
def psi_start : ℕ := y_start + N

/-- Offset of the v block, MPC.cpp line 24. -/
def v_start : ℕ := psi_start + N

/-- Offset of the cte block, MPC.cpp line 25. -/
def cte_start : ℕ := v_start + N

/-- Offset of the epsi block, MPC.cpp line 26. -/
def epsi_start : ℕ := cte_start + N

/-- Offset of the delta (steering) block, MPC.cpp line 27. -/
def delta_start : ℕ := epsi_start + N

/-- Offset of the a (acceleration) block, MPC.cpp line 28. -/
def a_start : ℕ := delta_start + N - 1

/-- Number of decision variables n_vars, MPC.cpp line 162. -/
def n_vars : ℕ := N * 6 + (N - 1) * 2

/-- Number of constraints n_constraints, MPC.cpp line 164. -/
def n_constraints : ℕ := N * 6

/-- Objective accumulation of FG_eval.operator() (MPC.cpp lines 59-78):
fg[0] starts at 0 and is incremented by three sequential loops over
t < N, t < N-1 and t < N-2. Weights w are the 7 cost weights. -/
def FG_eval_cost (w : ℕ → ℚ) (vars : ℕ → ℚ) : ℚ :=
  let c1 := (List.range N).foldl
    (fun acc t => acc + w 0 * (vars (cte_start + t))^2
                      + w 1 * (vars (epsi_start + t))^2
                      + w 2 * (vars (v_start + t) - ref_v)^2) 0
  let c2 := (List.range (N - 1)).foldl
    (fun acc t => acc + w 3 * (vars (delta_start + t))^2
                      + w 4 * (vars (a_start + t))^2) c1
  (List.range (N - 2)).foldl
    (fun acc t => acc + w 5 * (vars (delta_start + t + 1) - vars (delta_start + t))^2
                      + w 6 * (vars (a_start + t + 1) - vars (a_start + t))^2) c2

/-- C3: for every decision vector and every weight vector, the objective
value computed by FG_eval equals the sum of exactly 7 weighted quadratic
terms: over t = 0..N-1 the cte, epsi and speed-deviation terms, over
t = 0..N-2 the steering and acceleration magnitude terms, and over
t = 0..N-3 the steering-rate and acceleration-rate terms. -/
theorem C3_cost_is_weighted_sum (w vars : ℕ → ℚ) :
    FG_eval_cost w vars =
      (∑ t in Finset.range N, (w 0 * (vars (cte_start + t))^2
          + w 1 * (vars (epsi_start + t))^2
          + w 2 * (vars (v_start + t) - ref_v)^2))
        + (∑ t in Finset.range (N - 1), (w 3 * (vars (delta_start + t))^2
          + w 4 * (vars (a_start + t))^2))
        + (∑ t in Finset.range (N - 2), (w 5 * (vars (delta_start + t + 1) - vars (delta_start + t))^2
          + w 6 * (vars (a_start + t + 1) - vars (a_start + t))^2)) := by
  simp only [FG_eval_cost, N, List.range_succ, List.foldl_append, List.foldl_cons,
    List.foldl_nil, List.range_zero, Finset.sum_range_succ, Finset.sum_range_zero]
  norm_num
  ring

/-- One iteration of the constraint loop of FG_eval.operator() (MPC.cpp
lines 90-133): for loop index t (with 1 <= t < N) it overwrites the six
entries fg[1 + block + t] with the kinematic residuals; every other entry
is left unchanged. The source also reads cte0 = vars[cte_start + t - 1]
but never uses it, so it is omitted here. -/
def FG_eval_step (rcos rsin ratan : ℚ → ℚ) (coeffs : ℕ → ℚ) (vars : ℕ → ℚ)
    (fg : ℕ → ℚ) (t : ℕ) : ℕ → ℚ :=
  let x1 := vars (x_start + t)
  let y1 := vars (y_start + t)
  let psi1 := vars (psi_start + t)
  let v1 := vars (v_start + t)
  let cte1 := vars (cte_start + t)
  let epsi1 := vars (epsi_start + t)
  let x0 := vars (x_start + t - 1)
  let y0 := vars (y_start + t - 1)
  let psi0 := vars (psi_start + t - 1)
  let v0 := vars (v_start + t - 1)
  let epsi0 := vars (epsi_start + t - 1)
  let delta0 := vars (delta_start + t - 1)
  let a0 := vars (a_start + t - 1)
  let f0 := coeffs 0 + coeffs 1 * x0 + coeffs 2 * x0 * x0 + coeffs 3 * x0 * x0 * x0
  let psides0 := ratan (1 * coeffs 1 + 2 * coeffs 2 * x0 + 3 * coeffs 3 * x0 * x0)
  fun i =>
    if i = 1 + x_start + t then x1 - (x0 + v0 * rcos psi0 * dt)
    else if i = 1 + y_start + t then y1 - (y0 + v0 * rsin psi0 * dt)
    else if i = 1 + psi_start + t then psi1 - (psi0 + v0 * delta0 / Lf * dt)
    else if i = 1 + v_start + t then v1 - (v0 + a0 * dt)
    else if i = 1 + cte_start + t then cte1 - ((f0 - y0) + (v0 * rsin epsi0 * dt))
    else if i = 1 + epsi_start + t then epsi1 - ((psi0 - psides0) + v0 * delta0 / Lf * dt)
    else fg i

/-- State of fg before the constraint loop: the cost at index 0 (MPC.cpp
line 59-78) and the initial-state entries fg[1 + block] = vars[block]
(MPC.cpp lines 83-88); all remaining entries start at zero. -/
def FG_eval_base (w : ℕ → ℚ) (vars : ℕ → ℚ) : ℕ → ℚ :=
  fun i =>
    if i = 0 then FG_eval_cost w vars
    else if i = 1 + x_start then vars x_start
    else if i = 1 + y_start then vars y_start
    else if i = 1 + psi_start then vars psi_start
    else if i = 1 + v_start then vars v_start
    else if i = 1 + cte_start then vars cte_start
    else if i = 1 + epsi_start then vars epsi_start
    else 0

/-- Full fg vector produced by FG_eval.operator(): the base entries
followed by the constraint loop for t = 1..N-1. -/
def FG_eval_fg (rcos rsin ratan : ℚ → ℚ) (coeffs w vars : ℕ → ℚ) : ℕ → ℚ :=
  (List.range' 1 (N - 1)).foldl (FG_eval_step rcos rsin ratan coeffs vars)
    (FG_eval_base w vars)

lemma FG_step_ne (rcos rsin ratan : ℚ → ℚ) (coeffs vars fg : ℕ → ℚ) (t i : ℕ)
    (h1 : i ≠ 1 + x_start + t) (h2 : i ≠ 1 + y_start + t)
    (h3 : i ≠ 1 + psi_start + t) (h4 : i ≠ 1 + v_start + t)
    (h5 : i ≠ 1 + cte_start + t) (h6 : i ≠ 1 + epsi_start + t) :
    FG_eval_step rcos rsin ratan coeffs vars fg t i = fg i := by
  simp only [FG_eval_step]
  rw [if_neg h1, if_neg h2, if_neg h3, if_neg h4, if_neg h5, if_neg h6]

lemma FG_step_write_x (rcos rsin ratan : ℚ → ℚ) (coeffs vars fg : ℕ → ℚ) (t i : ℕ)
    (hi : i = 1 + x_start + t) :
    FG_eval_step rcos rsin ratan coeffs vars fg t i =
      vars (x_start + t) - (vars (x_start + t - 1) +
        vars (v_start + t - 1) * rcos (vars (psi_start + t - 1)) * dt) := by
  subst hi
  simp only [FG_eval_step, x_start, y_start, psi_start, v_start, cte_start,
    epsi_start, delta_start, a_start, N]
  split_ifs <;> rfl

lemma FG_step_write_y (rcos rsin ratan : ℚ → ℚ) (coeffs vars fg : ℕ → ℚ) (t i : ℕ)
    (hi : i = 1 + y_start + t) :
    FG_eval_step rcos rsin ratan coeffs vars fg t i =
      vars (y_start + t) - (vars (y_start + t - 1) +
        vars (v_start + t - 1) * rsin (vars (psi_start + t - 1)) * dt) := by
  subst hi
  simp only [FG_eval_step, x_start, y_start, psi_start, v_start, cte_start,
    epsi_start, delta_start, a_start, N]
  split_ifs <;> first | rfl | omega

lemma FG_step_write_psi (rcos rsin ratan : ℚ → ℚ) (coeffs vars fg : ℕ → ℚ) (t i : ℕ)
    (hi : i = 1 + psi_start + t) :
    FG_eval_step rcos rsin ratan coeffs vars fg t i =
      vars (psi_start + t) - (vars (psi_start + t - 1) +
        vars (v_start + t - 1) * vars (delta_start + t - 1) / Lf * dt) := by
  subst hi
  simp only [FG_eval_step, x_start, y_start, psi_start, v_start, cte_start,
    epsi_start, delta_start, a_start, N]
  split_ifs <;> first | rfl | omega

lemma FG_step_write_v (rcos rsin ratan : ℚ → ℚ) (coeffs vars fg : ℕ → ℚ) (t i : ℕ)
    (hi : i = 1 + v_start + t) :
    FG_eval_step rcos rsin ratan coeffs vars fg t i =
      vars (v_start + t) - (vars (v_start + t - 1) + vars (a_start + t - 1) * dt) := by
  subst hi
  simp only [FG_eval_step, x_start, y_start, psi_start, v_start, cte_start,
    epsi_start, delta_start, a_start, N]
  split_ifs <;> first | rfl | omega

lemma FG_step_write_cte (rcos rsin ratan : ℚ → ℚ) (coeffs vars fg : ℕ → ℚ) (t i : ℕ)
    (hi : i = 1 + cte_start + t) :
    FG_eval_step rcos rsin ratan coeffs vars fg t i =
      vars (cte_start + t) -
        ((coeffs 0 + coeffs 1 * vars (x_start + t - 1)
            + coeffs 2 * vars (x_start + t - 1) * vars (x_start + t - 1)
            + coeffs 3 * vars (x_start + t - 1) * vars (x_start + t - 1) * vars (x_start + t - 1)
          - vars (y_start + t - 1)) +
          (vars (v_start + t - 1) * rsin (vars (epsi_start + t - 1)) * dt)) := by
  subst hi
  simp only [FG_eval_step, x_start, y_start, psi_start, v_start, cte_start,
    epsi_start, delta_start, a_start, N]
  split_ifs <;> first | rfl | omega

lemma FG_step_write_epsi (rcos rsin ratan : ℚ → ℚ) (coeffs vars fg : ℕ → ℚ) (t i : ℕ)
    (hi : i = 1 + epsi_start + t) :
    FG_eval_step rcos rsin ratan coeffs vars fg t i =
      vars (epsi_start + t) -
        ((vars (psi_start + t - 1) -
            ratan (1 * coeffs 1 + 2 * coeffs 2 * vars (x_start + t - 1)
              + 3 * coeffs 3 * vars (x_start + t - 1) * vars (x_start + t - 1))) +
          vars (v_start + t - 1) * vars (delta_start + t - 1) / Lf * dt) := by
  subst hi
  simp only [FG_eval_step, x_start, y_start, psi_start, v_start, cte_start,
    epsi_start, delta_start, a_start, N]
  split_ifs <;> first | rfl | omega

/-- C2: for every step t = 1..N-1 and every decision vector, the 6
constraint entries produced for that step equal the residuals of
next-state minus the kinematic-model prediction, with the cte and epsi
residuals using the fitted cubic value and tangent angle evaluated at
the x-position of the previous step. Here the Fin binder ranges over
the previous step index, so the step is t.val + 1. -/
theorem C2_constraints_are_kinematic_residuals
    (rcos rsin ratan : ℚ → ℚ) (coeffs w vars : ℕ → ℚ) (t : Fin (N - 1)) :
    (FG_eval_fg rcos rsin ratan coeffs w vars (1 + x_start + (t.val + 1)) =
        vars (x_start + (t.val + 1)) -
          (vars (x_start + t.val) +
            vars (v_start + t.val) * rcos (vars (psi_start + t.val)) * dt))
    ∧ (FG_eval_fg rcos rsin ratan coeffs w vars (1 + y_start + (t.val + 1)) =
        vars (y_start + (t.val + 1)) -
          (vars (y_start + t.val) +
            vars (v_start + t.val) * rsin (vars (psi_start + t.val)) * dt))
    ∧ (FG_eval_fg rcos rsin ratan coeffs w vars (1 + psi_start + (t.val + 1)) =
        vars (psi_start + (t.val + 1)) -
          (vars (psi_start + t.val) +
            vars (v_start + t.val) / Lf * vars (delta_start + t.val) * dt))
    ∧ (FG_eval_fg rcos rsin ratan coeffs w vars (1 + v_start + (t.val + 1)) =
        vars (v_start + (t.val + 1)) -
          (vars (v_start + t.val) + vars (a_start + t.val) * dt))
    ∧ (FG_eval_fg rcos rsin ratan coeffs w vars (1 + cte_start + (t.val + 1)) =
        vars (cte_start + (t.val + 1)) -
          ((coeffs 0 + coeffs 1 * vars (x_start + t.val)
              + coeffs 2 * (vars (x_start + t.val))^2
              + coeffs 3 * (vars (x_start + t.val))^3
            - vars (y_start + t.val)) +
            vars (v_start + t.val) * rsin (vars (epsi_start + t.val)) * dt))
    ∧ (FG_eval_fg rcos rsin ratan coeffs w vars (1 + epsi_start + (t.val + 1)) =
        vars (epsi_start + (t.val + 1)) -
          ((vars (psi_start + t.val) -
              ratan (coeffs 1 + 2 * coeffs 2 * vars (x_start + t.val)
                + 3 * coeffs 3 * (vars (x_start + t.val))^2)) +
            vars (v_start + t.val) / Lf * vars (delta_start + t.val) * dt)) := by
  obtain ⟨s, hs⟩ := t
  simp only [N] at hs
  have hr : List.range' 1 7 = [1, 2, 3, 4, 5, 6, 7] := rfl
  interval_cases s <;>
  refine ⟨?_, ?_, ?_, ?_, ?_, ?_⟩ <;>
  (simp [FG_eval_fg, hr, List.foldl_cons, List.foldl_nil,
    FG_step_ne, FG_step_write_x, FG_step_write_y, FG_step_write_psi, FG_step_write_v,
    FG_step_write_cte, FG_step_write_epsi,
    x_start, y_start, psi_start, v_start, cte_start, epsi_start, delta_start, a_start, N]
   <;> try ring_nf
   <;> try simp)

/-- Initial value of the independent variables built by MPC::Solve
(MPC.cpp lines 166-179): all zero except the six initial-state entries
placed at the start of each state block. -/
def solveVarsInit (x y psi v cte epsi : ℚ) : ℕ → ℚ :=
  fun i =>
    if i = x_start then x
    else if i = y_start then y
    else if i = psi_start then psi
    else if i = v_start then v
    else if i = cte_start then cte
    else if i = epsi_start then epsi
    else 0

/-- Lower limits for the decision variables (MPC.cpp lines 181-205):
state variables get -1.0e19, steering gets -0.436332 rad, acceleration
gets -1. Entries at or beyond n_vars are not part of the array and are
given the default 0. -/
def vars_lowerbound : ℕ → ℚ :=
  fun i =>
    if i < delta_start then -1.0e19
    else if i < a_start then -0.436332
    else if i < n_vars then -1
    else 0

/-- Upper limits for the decision variables (MPC.cpp lines 181-205). -/
def vars_upperbound : ℕ → ℚ :=
  fun i =>
    if i < delta_start then 1.0e19
    else if i < a_start then 0.436332
    else if i < n_vars then 1
    else 0

/-- Lower limits for the constraints built by MPC::Solve (MPC.cpp lines
207-220): zero everywhere except the entries at the start of each state
block, which are set to the corresponding component of the current
state. -/
def constraints_lowerbound (x y psi v cte epsi : ℚ) : ℕ → ℚ :=
  fun i =>
    if i = x_start then x
    else if i = y_start then y
    else if i = psi_start then psi
    else if i = v_start then v
    else if i = cte_start then cte
    else if i = epsi_start then epsi
    else 0

/-- Upper limits for the constraints built by MPC::Solve (MPC.cpp lines
209-227); identical to the lower limits. -/
def constraints_upperbound (x y psi v cte epsi : ℚ) : ℕ → ℚ :=
  fun i =>
    if i = x_start then x
    else if i = y_start then y
    else if i = psi_start then psi
    else if i = v_start then v
    else if i = cte_start then cte
    else if i = epsi_start then epsi
    else 0

/-- C4: the decision vector has total length 6N + 2(N-1) and is laid out
as fixed contiguous blocks (x, y, psi, v, cte, epsi of length N, then
delta and a of length N-1), and this same layout is used by the
variable-bounds arrays, the initial-guess array, and the constraint
evaluation of FG_eval: every index each of them touches falls in the
block the layout assigns to it. -/
theorem C4_decision_vector_layout :
    (n_vars = 6 * N + 2 * (N - 1)
      ∧ y_start = x_start + N ∧ psi_start = y_start + N ∧ v_start = psi_start + N
      ∧ cte_start = v_start + N ∧ epsi_start = cte_start + N
      ∧ delta_start = epsi_start + N ∧ a_start = delta_start + (N - 1)
      ∧ n_vars = a_start + (N - 1))
    ∧ (∀ i, i < delta_start → vars_lowerbound i = -1.0e19 ∧ vars_upperbound i = 1.0e19)
    ∧ (∀ i, delta_start ≤ i → i < a_start →
        vars_lowerbound i = -0.436332 ∧ vars_upperbound i = 0.436332)
    ∧ (∀ i, a_start ≤ i → i < n_vars →
        vars_lowerbound i = -1 ∧ vars_upperbound i = 1)
    ∧ (∀ x y psi v cte epsi,
        solveVarsInit x y psi v cte epsi x_start = x
        ∧ solveVarsInit x y psi v cte epsi y_start = y
        ∧ solveVarsInit x y psi v cte epsi psi_start = psi
        ∧ solveVarsInit x y psi v cte epsi v_start = v
        ∧ solveVarsInit x y psi v cte epsi cte_start = cte
        ∧ solveVarsInit x y psi v cte epsi epsi_start = epsi
        ∧ (∀ i, i ≠ x_start → i ≠ y_start → i ≠ psi_start → i ≠ v_start →
            i ≠ cte_start → i ≠ epsi_start → solveVarsInit x y psi v cte epsi i = 0))
    ∧ (∀ t : Fin N, x_start + t.val < n_vars ∧ y_start + t.val < n_vars
        ∧ psi_start + t.val < n_vars ∧ v_start + t.val < n_vars
        ∧ cte_start + t.val < n_vars ∧ epsi_start + t.val < n_vars)
    ∧ (∀ t : Fin (N - 1), delta_start + t.val < n_vars ∧ a_start + t.val < n_vars) := by
  refine ⟨by simp [n_vars, a_start, delta_start, epsi_start, cte_start, v_start,
      psi_start, y_start, x_start, N], ?_, ?_, ?_, ?_, ?_, ?_⟩
  · intro i hi
    simp only [vars_lowerbound, vars_upperbound]
    rw [if_pos hi, if_pos hi]
    exact ⟨rfl, rfl⟩
  · intro i hi1 hi2
    simp only [vars_lowerbound, vars_upperbound]
    rw [if_neg (by omega), if_pos hi2, if_neg (by omega), if_pos hi2]
    exact ⟨rfl, rfl⟩
  · intro i hi1 hi2
    simp only [vars_lowerbound, vars_upperbound, a_start, delta_start, epsi_start,
      cte_start, v_start, psi_start, y_start, x_start, n_vars, N] at hi1 hi2 ⊢
    rw [if_neg (by omega), if_neg (by omega), if_pos (by omega),
      if_neg (by omega), if_neg (by omega), if_pos (by omega)]
    exact ⟨rfl, rfl⟩
  · intro x y psi v cte epsi
    refine ⟨rfl, ?_, ?_, ?_, ?_, ?_, ?_⟩
    · simp [solveVarsInit, x_start, y_start, psi_start, v_start,
        cte_start, epsi_start, N]
    · simp [solveVarsInit, x_start, y_start, psi_start, v_start,
        cte_start, epsi_start, N]
    · simp [solveVarsInit, x_start, y_start, psi_start, v_start,
        cte_start, epsi_start, N]
    · simp [solveVarsInit, x_start, y_start, psi_start, v_start,
        cte_start, epsi_start, N]
    · simp [solveVarsInit, x_start, y_start, psi_start, v_start,
        cte_start, epsi_start, N]
    · intro i h1 h2 h3 h4 h5 h6
      simp only [x_start, y_start, psi_start, v_start, cte_start, epsi_start, N]
        at h1 h2 h3 h4 h5 h6
      simp [solveVarsInit, x_start, y_start, psi_start, v_start,
        cte_start, epsi_start, N, h1, h2, h3, h4, h5, h6]
  · intro t
    have := t.isLt
    simp only [N] at this
    simp only [x_start, y_start, psi_start, v_start, cte_start, epsi_start,
      n_vars, N]
    omega
  · intro t
    have := t.isLt
    simp only [N] at this
    simp only [delta_start, a_start, epsi_start, cte_start, v_start, psi_start,
      y_start, x_start, n_vars, N]
    omega

/-- Witness for C4 at concrete indices: index 0 lies in the unbounded
state block, index 48 starts the steering block, index 55 starts the
acceleration block, and index 7 of the initial guess is zero. -/
theorem C4_decision_vector_layout_witness :
    vars_lowerbound 0 = -1.0e19 ∧ vars_lowerbound 48 = -0.436332
      ∧ vars_upperbound 55 = 1 ∧ solveVarsInit 1 2 3 4 5 6 7 = 0 :=
  ⟨(C4_decision_vector_layout.2.1 0 (by decide)).1,
   (C4_decision_vector_layout.2.2.1 48 (by decide) (by decide)).1,
   (C4_decision_vector_layout.2.2.2.1 55 (by decide) (by decide)).2,
   (C4_decision_vector_layout.2.2.2.2.1 1 2 3 4 5 6).2.2.2.2.2.2 7
     (by decide) (by decide) (by decide) (by decide) (by decide) (by decide)⟩

/-- C5 as stated is false on the code: the six pinned entries of the
constraint bounds are not the first 6 entries but the entries at the
start of each state-channel block. Concretely, for current state
(x, y, psi, v, cte, epsi) = (0, 1, 0, 0, 0, 0) the claim requires entry 1
to equal y = 1 and entry 8 (which is past the first 6) to be 0; the code
gives entry 1 = 0 and entry 8 = 1. -/
theorem C5_counterexample :
    ¬ (constraints_lowerbound 0 1 0 0 0 0 1 = 1 ∧
       constraints_lowerbound 0 1 0 0 0 0 8 = 0) := by
  decide

/-- C5 amended: the constraint bounds vectors have length 6N; the six
entries pinning the initial state sit at the start of each state-channel
block, i.e. at indices x_start = 0, y_start = N, psi_start = 2N,
v_start = 3N, cte_start = 4N, epsi_start = 5N, with equal lower and upper
bounds set to the corresponding state component; all other entries are
zero/zero equality bounds for the dynamics residuals. -/
theorem C5_amended_constraint_bounds (x y psi v cte epsi : ℚ) :
    n_constraints = 6 * N
    ∧ (x_start = 0 ∧ y_start = N ∧ psi_start = 2 * N ∧ v_start = 3 * N
        ∧ cte_start = 4 * N ∧ epsi_start = 5 * N)
    ∧ constraints_lowerbound x y psi v cte epsi x_start = x
    ∧ constraints_lowerbound x y psi v cte epsi y_start = y
    ∧ constraints_lowerbound x y psi v cte epsi psi_start = psi
    ∧ constraints_lowerbound x y psi v cte epsi v_start = v
    ∧ constraints_lowerbound x y psi v cte epsi cte_start = cte
    ∧ constraints_lowerbound x y psi v cte epsi epsi_start = epsi
    ∧ constraints_upperbound x y psi v cte epsi x_start = x
    ∧ constraints_upperbound x y psi v cte epsi y_start = y
    ∧ constraints_upperbound x y psi v cte epsi psi_start = psi
    ∧ constraints_upperbound x y psi v cte epsi v_start = v
    ∧ constraints_upperbound x y psi v cte epsi cte_start = cte
    ∧ constraints_upperbound x y psi v cte epsi epsi_start = epsi
    ∧ (∀ i, i < n_constraints → i ≠ x_start → i ≠ y_start → i ≠ psi_start →
        i ≠ v_start → i ≠ cte_start → i ≠ epsi_start →
        constraints_lowerbound x y psi v cte epsi i = 0
          ∧ constraints_upperbound x y psi v cte epsi i = 0) := by
  have hz : ∀ i, i < n_constraints → i ≠ x_start → i ≠ y_start → i ≠ psi_start →
      i ≠ v_start → i ≠ cte_start → i ≠ epsi_start →
      constraints_lowerbound x y psi v cte epsi i = 0
        ∧ constraints_upperbound x y psi v cte epsi i = 0 := by
    intro i hn h1 h2 h3 h4 h5 h6
    simp only [x_start, y_start, psi_start, v_start, cte_start, epsi_start, N]
      at h1 h2 h3 h4 h5 h6
    constructor <;>
      simp [constraints_lowerbound, constraints_upperbound, x_start, y_start,
        psi_start, v_start, cte_start, epsi_start, N, h1, h2, h3, h4, h5, h6]
  refine ⟨rfl, ⟨rfl, rfl, rfl, rfl, rfl, rfl⟩,
    ?_, ?_, ?_, ?_, ?_, ?_, ?_, ?_, ?_, ?_, ?_, ?_, hz⟩ <;>
    simp [constraints_lowerbound, constraints_upperbound, x_start, y_start,
      psi_start, v_start, cte_start, epsi_start, N]

/-- Witness for C5 amended at a concrete state and concrete indices. -/
theorem C5_amended_constraint_bounds_witness :
    constraints_lowerbound 1 2 3 4 5 6 y_start = 2
      ∧ constraints_lowerbound 1 2 3 4 5 6 3 = 0 :=
  ⟨(C5_amended_constraint_bounds 1 2 3 4 5 6).2.2.2.1,
   ((C5_amended_constraint_bounds 1 2 3 4 5 6).2.2.2.2.2.2.2.2.2.2.2.2.2.2 3
     (by decide) (by decide) (by decide) (by decide) (by decide) (by decide)
     (by decide)).1⟩

/-- Status values of the external solver, following the enumeration in
the cppad ipopt solve_result type. -/
inductive IpoptStatus
  | not_defined
  | success
  | maxiter_exceeded
  | stop_at_tiny_step
  | stop_at_acceptable_point
  | local_infeasibility
  | user_requested_stop
  | feasible_point_found
  | diverging_iterates
  | restoration_failure
  | error_in_step_computation
  | invalid_number_detected
  | too_few_degrees_of_freedom
  | internal_error
  | unknown
deriving DecidableEq

/-- Return type of MPC::Solve, MPC.h lines 12-17: first-step steering d,
first-step acceleration a, and the predicted trajectory. It carries no
field that could report a solver failure. -/
structure actuation_vars where
  d : ℚ
  a : ℚ
  x_vals : List ℚ
  y_vals : List ℚ
deriving DecidableEq

/-- Post-solve extraction of MPC::Solve (MPC.cpp lines 260-275). The
source computes ok = (solution.status == success) into a local that is
never read again, then unconditionally extracts the actuations and the
predicted trajectory from solution.x; the status argument therefore does
not influence the result. -/
def MPC_Solve_extract (status : IpoptStatus) (solx : ℕ → ℚ) : actuation_vars :=
  { d := solx delta_start
    a := solx a_start
    x_vals := (List.range' 1 (N - 1)).map (fun t => solx (x_start + t))
    y_vals := (List.range' 1 (N - 1)).map (fun t => solx (y_start + t)) }

/-- C1 fails on the code: when the solver stops at its iteration limit
(status maxiter_exceeded, a non-success status), MPC::Solve returns
exactly the same unchecked actuation values extracted from the result
vector as it would for a successful solve, with no failure signal in the
returned value; here evaluated at the concrete result vector
solx i = i, whose first-step steering entry is 48. -/
theorem C1_solver_failure_not_surfaced :
    MPC_Solve_extract IpoptStatus.maxiter_exceeded (fun i => (i : ℚ))
      = MPC_Solve_extract IpoptStatus.success (fun i => (i : ℚ))
    ∧ (MPC_Solve_extract IpoptStatus.maxiter_exceeded (fun i => (i : ℚ))).d = 48 := by
  constructor <;> rfl

/-- Polynomial evaluation, main.cpp lines 44-51: result starts at 0 and
accumulates coeffs[i] * x^i over all indices i. -/
def polyeval (coeffs : List ℚ) (x : ℚ) : ℚ :=
  coeffs.enum.foldl (fun result p => result + p.2 * x ^ p.1) 0

lemma polyeval_zero_aux (l : List ℚ) (k : ℕ) (hk : 1 ≤ k) (acc : ℚ) :
    (List.enumFrom k l).foldl (fun result p => result + p.2 * (0:ℚ) ^ p.1) acc
      = acc := by
  induction l generalizing k acc with
  | nil => rfl
  | cons a l ih =>
      simp only [List.enumFrom, List.foldl_cons]
      rw [zero_pow (by omega), mul_zero, add_zero]
      exact ih (k + 1) (by omega) acc

/-- C7: for every coefficient vector with at least one entry,
polyeval(coeffs, 0) equals coeffs[0] exactly, so the cross-track error
computed at the local origin x = 0 (main.cpp line 168) equals the fitted
polynomial constant term exactly. -/
theorem C7_polyeval_zero_is_constant_term (coeffs : List ℚ)
    (h : 0 < coeffs.length) :
    polyeval coeffs 0 = coeffs.getD 0 0 := by
  cases coeffs with
  | nil => exact absurd h (by simp)
  | cons c cs =>
      simp only [polyeval, List.enum_cons, List.foldl_cons, List.getD_cons_zero]
      rw [pow_zero, mul_one, zero_add]
      exact polyeval_zero_aux cs 1 le_rfl c

/-- Witness for C7 on the concrete coefficient list [5, 7]. -/
theorem C7_polyeval_zero_is_constant_term_witness :
    0 < ([(5 : ℚ), 7]).length ∧ polyeval [(5 : ℚ), 7] 0 = ([(5 : ℚ), 7]).getD 0 0 :=
  ⟨by decide, C7_polyeval_zero_is_constant_term [(5 : ℚ), 7] (by decide)⟩

/-- One row of the Vandermonde matrix built by polyfit (main.cpp lines
62-70): entry 0 is 1 and each further entry multiplies the previous one
by the x value; the first argument of the recursion counts the entries
still to produce and the second holds the running power. -/
def vandermondeRowAux (x : ℚ) : ℕ → ℚ → List ℚ
  | 0, _ => []
  | n + 1, acc => acc :: vandermondeRowAux x n (acc * x)

/-- Polynomial fit, main.cpp lines 56-75. The two assertions (equal
lengths, and 1 <= order <= xvals.size() - 1 in signed arithmetic) are
modelled as a guard returning none; when the guard holds the Vandermonde
matrix and the y values are handed to the external orthogonal solver qr,
an abstract parameter standing for the Eigen householderQr solve. -/
def polyfit (qr : List (List ℚ) → List ℚ → List ℚ)
    (xvals yvals : List ℚ) (order : ℕ) : Option (List ℚ) :=
  if xvals.length = yvals.length
      ∧ 1 ≤ order ∧ (order : ℤ) ≤ (xvals.length : ℤ) - 1 then
    some (qr (xvals.map (fun xj => vandermondeRowAux xj (order + 1) 1)) yvals)
  else none

/-- C6: for every input with fewer waypoints than order + 1, polyfit
fails fast instead of returning a fit. -/
theorem C6_insufficient_waypoints_fail (qr : List (List ℚ) → List ℚ → List ℚ)
    (xvals yvals : List ℚ) (order : ℕ) (h : xvals.length < order + 1) :
    polyfit qr xvals yvals order = none := by
  simp only [polyfit]
  rw [if_neg]
  rintro ⟨h1, h2, h3⟩
  omega

/-- Witness for C6: two waypoints and a degree-3 fit produce no fit. -/
theorem C6_insufficient_waypoints_fail_witness :
    ([(0 : ℚ), 10]).length < 3 + 1
      ∧ polyfit (fun _ _ => []) [(0 : ℚ), 10] [(0 : ℚ), 0] 3 = none :=
  ⟨by decide, C6_insufficient_waypoints_fail (fun _ _ => []) [(0 : ℚ), 10]
    [(0 : ℚ), 0] 3 (by decide)⟩

/-- Waypoint transform from world frame to the vehicle frame, main.cpp
lines 152-162: translate by (-px, -py), then rotate; cn and sn stand for
the cosine and sine of -psi as computed at the call site. -/
def transformToVehicle {α : Type} [CommRing α] (px py cn sn wx wy : α) : α × α :=
  ((wx - px) * cn - (wy - py) * sn, (wx - px) * sn + (wy - py) * cn)

/-- Inverse of the waypoint transform: rotate by psi (with cosine c and
sine s), then translate by (px, py). -/
def transformToWorld {α : Type} [CommRing α] (px py c s lx ly : α) : α × α :=
  (lx * c - ly * s + px, lx * s + ly * c + py)

/-- C8: for every vehicle pose and world waypoint, the frame transform
followed by its inverse reproduces the original waypoint exactly over
the reals. -/
theorem C8_frame_transform_round_trip (px py psi wx wy : ℝ) :
    transformToWorld px py (Real.cos psi) (Real.sin psi)
      (transformToVehicle px py (Real.cos (-psi)) (Real.sin (-psi)) wx wy).1
      (transformToVehicle px py (Real.cos (-psi)) (Real.sin (-psi)) wx wy).2
    = (wx, wy) := by
  have h := Real.sin_sq_add_cos_sq psi
  simp only [transformToVehicle, transformToWorld, Real.cos_neg, Real.sin_neg]
  refine Prod.ext ?_ ?_
  · linear_combination (wx - px) * h
  · linear_combination (wy - py) * h

/-- State vector built by onMessage (main.cpp lines 164-176): cross-track
error from the fitted polynomial at x = 0, heading error -atan(coeffs[1]),
and the constant pose (0, 0, 0) of the vehicle-local frame. -/
def onMessage_state (ratan : ℚ → ℚ) (v : ℚ) (coeffs : List ℚ) : Fin 6 → ℚ :=
  ![0, 0, 0, v, polyeval coeffs 0, -(ratan (coeffs.getD 1 0))]

/-- C10: in every control cycle the state passed to MPC::Solve has
x = 0, y = 0 and psi = 0, so the pinned initial position and heading of
the NLP (the constraint bounds at x_start, y_start and psi_start) are
always zero; only speed, cte and epsi vary between cycles. -/
theorem C10_initial_pose_always_zero (ratan : ℚ → ℚ) (v : ℚ) (coeffs : List ℚ) :
    onMessage_state ratan v coeffs 0 = 0
    ∧ onMessage_state ratan v coeffs 1 = 0
    ∧ onMessage_state ratan v coeffs 2 = 0
    ∧ constraints_lowerbound (onMessage_state ratan v coeffs 0)
        (onMessage_state ratan v coeffs 1) (onMessage_state ratan v coeffs 2)
        (onMessage_state ratan v coeffs 3) (onMessage_state ratan v coeffs 4)
        (onMessage_state ratan v coeffs 5) x_start = 0
    ∧ constraints_lowerbound (onMessage_state ratan v coeffs 0)
        (onMessage_state ratan v coeffs 1) (onMessage_state ratan v coeffs 2)
        (onMessage_state ratan v coeffs 3) (onMessage_state ratan v coeffs 4)
        (onMessage_state ratan v coeffs 5) y_start = 0
    ∧ constraints_lowerbound (onMessage_state ratan v coeffs 0)
        (onMessage_state ratan v coeffs 1) (onMessage_state ratan v coeffs 2)
        (onMessage_state ratan v coeffs 3) (onMessage_state ratan v coeffs 4)
        (onMessage_state ratan v coeffs 5) psi_start = 0
    ∧ constraints_upperbound (onMessage_state ratan v coeffs 0)
        (onMessage_state ratan v coeffs 1) (onMessage_state ratan v coeffs 2)
        (onMessage_state ratan v coeffs 3) (onMessage_state ratan v coeffs 4)
        (onMessage_state ratan v coeffs 5) x_start = 0
    ∧ constraints_upperbound (onMessage_state ratan v coeffs 0)
        (onMessage_state ratan v coeffs 1) (onMessage_state ratan v coeffs 2)
        (onMessage_state ratan v coeffs 3) (onMessage_state ratan v coeffs 4)
        (onMessage_state ratan v coeffs 5) y_start = 0
    ∧ constraints_upperbound (onMessage_state ratan v coeffs 0)
        (onMessage_state ratan v coeffs 1) (onMessage_state ratan v coeffs 2)
        (onMessage_state ratan v coeffs 3) (onMessage_state ratan v coeffs 4)
        (onMessage_state ratan v coeffs 5) psi_start = 0 := by
  exact ⟨rfl, rfl, rfl, rfl, rfl, rfl, rfl, rfl, rfl⟩

end MPCModel
